import Mathlib

/-!
Shallow embedding of `src/examples/raspberrypi/rp2040/scripts/listen.py`:
a serial listener that dispatches angle-marker lines to a camera capture
routine, which saves JPEG files into per-angle directories whose next
filename is derived from the directory entry count.

External effects (serial reads, camera grabs, image writes) are modelled by
explicit oracles; printed output is collected as a list of log strings.
-/

namespace Listen

/-! ### Decimal rendering (Python formatting of an int inside an f-string) -/

/-- Decimal digit characters of `n`, most significant first (a recursion
used below to reason about `Nat.repr`). -/
def decimalChars (n : Nat) : List Char :=
  if _h : n < 10 then [Nat.digitChar n]
  else decimalChars (n / 10) ++ [Nat.digitChar (n % 10)]
termination_by n
decreasing_by exact Nat.div_lt_self (by omega) (by omega)

/-- Decimal string of `n`, as Python renders an int in an f-string. -/
def natDecimal (n : Nat) : String :=
  Nat.repr n

/-! ### Python str.rstrip: drop trailing whitespace -/

/-- Whitespace characters stripped by Python str.rstrip (ASCII range). -/
def pyIsSpace (c : Char) : Bool :=
  c = ' ' || c = '\t' || c = '\n' || c = '\r' || c = '\x0b' || c = '\x0c'

/-- Python `s.rstrip()` on the decoded text (line 55). -/
def pyRstrip (s : String) : String :=
  String.mk ((s.data.reverse.dropWhile pyIsSpace).reverse)

/-! ### UTF-8 decoding (`bytes.decode("utf-8")`, strict error mode) -/

/-- Whether a byte is a UTF-8 continuation byte. -/
def isCont (b : Nat) : Bool :=
  decide (0x80 ≤ b ∧ b ≤ 0xBF)

/-- Strict UTF-8 decoding of a byte list; `none` models a raised
UnicodeDecodeError (line 55 decodes with no error handler). -/
def decode_utf8 : List Nat → Option (List Char)
  | [] => some []
  | b :: rest =>
    if b ≤ 0x7F then
      (decode_utf8 rest).map (fun cs => Char.ofNat b :: cs)
    else if 0xC2 ≤ b ∧ b ≤ 0xDF then
      match rest with
      | c1 :: rest1 =>
        if isCont c1 then
          (decode_utf8 rest1).map
            (fun cs => Char.ofNat ((b - 0xC0) * 0x40 + (c1 - 0x80)) :: cs)
        else none
      | [] => none
    else if 0xE0 ≤ b ∧ b ≤ 0xEF then
      match rest with
      | c1 :: c2 :: rest2 =>
        if isCont c1 ∧ isCont c2 ∧ (b = 0xE0 → 0xA0 ≤ c1) ∧ (b = 0xED → c1 ≤ 0x9F) then
          (decode_utf8 rest2).map
            (fun cs =>
              Char.ofNat ((b - 0xE0) * 0x1000 + (c1 - 0x80) * 0x40 + (c2 - 0x80)) :: cs)
        else none
      | _ => none
    else if 0xF0 ≤ b ∧ b ≤ 0xF4 then
      match rest with
      | c1 :: c2 :: c3 :: rest3 =>
        if isCont c1 ∧ isCont c2 ∧ isCont c3
            ∧ (b = 0xF0 → 0x90 ≤ c1) ∧ (b = 0xF4 → c1 ≤ 0x8F) then
          (decode_utf8 rest3).map
            (fun cs =>
              Char.ofNat ((b - 0xF0) * 0x40000 + (c1 - 0x80) * 0x1000
                + (c2 - 0x80) * 0x40 + (c3 - 0x80)) :: cs)
        else none
      | _ => none
    else none

/-- ASCII encoding of a string, for building concrete byte lines. -/
def encodeAscii (s : String) : List Nat :=
  s.data.map Char.toNat

/-! ### Data model: directories, external-device oracles, program state -/

/-- Line 7: the directory for angle 5 captures. -/
def capture_dir_5 : String := "captures/angle_5"

/-- Line 8: the directory for angle 45 captures. -/
def capture_dir_45 : String := "captures/angle_45"

/-- Filesystem state: the entries (base filenames, in creation order) of the
two capture directories created at lines 9 and 10. -/
structure Store where
  angle5 : List String
  angle45 : List String
deriving DecidableEq

/-- `os.listdir(folder)` (line 27): the entries of a directory. -/
def Store.listdir (st : Store) (folder : String) : List String :=
  if folder = capture_dir_5 then st.angle5
  else if folder = capture_dir_45 then st.angle45
  else []

/-- Effect of a successful `cv2.imwrite` into `folder`: the new entry is
appended to that directory. -/
def Store.writeFile (st : Store) (folder : String) (base : String) : Store :=
  if folder = capture_dir_5 then { st with angle5 := st.angle5 ++ [base] }
  else if folder = capture_dir_45 then { st with angle45 := st.angle45 ++ [base] }
  else st

/-- Oracles for the external devices: whether the camera is open
(`camera.isOpened()`), the result of the i-th `camera.read()` call
(`none` models ret being False), and whether the i-th `cv2.imwrite` call
persists the file (cv2.imwrite reports failure through its return value,
which line 31 ignores). -/
structure World where
  camOpened : Bool
  camRead : Nat → Option Nat
  writeOk : Nat → Bool

/-- Program state threaded through a run: the filesystem plus how many
camera reads and image writes have happened so far (used to index the
oracles). -/
structure St where
  store : Store
  reads : Nat
  writes : Nat
deriving DecidableEq

/-! ### capture_image (lines 14-34) -/

/-- Line 26: `folder = capture_dir_5 if angle == 5 else capture_dir_45`. -/
def select_folder (angle : Nat) : String :=
  if angle = 5 then capture_dir_5 else capture_dir_45

/-- Lines 27-28: the base filename chosen for the next capture, derived
from the current entry count of the directory. -/
def next_capture_name (entries : List String) : String :=
  "capture_" ++ natDecimal (entries.length + 1) ++ ".jpg"

/-- Lines 14-34: `capture_image(angle)`. Returns the updated state and the
printed log lines. If the camera is not opened, or the grab returns no
frame, nothing is written; otherwise the filename is computed from the
entry count and the write is attempted once, its result ignored. -/
def capture_image (w : World) (angle : Nat) (st : St) : St × List String :=
  if w.camOpened = false then
    (st, ["Could not open camera"])
  else
    let st1 : St := { st with reads := st.reads + 1 }
    match w.camRead st.reads with
    | some _ =>
      let folder := select_folder angle
      let base := next_capture_name (st1.store.listdir folder)
      let file_name := folder ++ "/" ++ base
      let st2 : St := { st1 with
        writes := st1.writes + 1,
        store := if w.writeOk st1.writes then st1.store.writeFile folder base
                 else st1.store }
      (st2, ["Captured image saved as " ++ file_name])
    | none => (st1, ["Failed to capture image"])

/-! ### The dispatcher (lines 55-62) -/

/-- Lines 59-62 as a pure function: which angle, if any, a decoded and
stripped line triggers. -/
def dispatch (data : String) : Option Nat :=
  if data = "Angle: 70" then some 70
  else if data = "Angle: 48" then some 48
  else none

/-- The loop body for one decoded line (lines 56-62): print the line, then
match it against the two angle markers and capture on a match. Returns the
new state, the printed lines, and the angle captured (if any). -/
def handle_line (w : World) (data : String) (st : St) : St × List String × Option Nat :=
  if data = "Angle: 70" then
    let r := capture_image w 70 st
    (r.1, ("Received: " ++ data) :: r.2, some 70)
  else if data = "Angle: 48" then
    let r := capture_image w 48 st
    (r.1, ("Received: " ++ data) :: r.2, some 48)
  else
    (st, [("Received: " ++ data)], none)

/-- Feeding a sequence of already-decoded lines to the dispatcher, one
`handle_line` call per line. Returns the final state, all printed lines,
and the list of capture invocations in order. -/
def onLines (w : World) : List String → St → St × List String × List Nat
  | [], st => (st, [], [])
  | data :: ls, st =>
    let r1 := handle_line w data st
    let r2 := onLines w ls r1.1
    (r2.1, r1.2.1 ++ r2.2.1,
      (match r1.2.2 with | some a => a :: r2.2.2 | none => r2.2.2))

/-! ### The read loop (lines 51-65) -/

/-- One result of `ser.readline()`: the raw bytes of a line, or a
SerialException raised during the read. -/
inductive ReadEvent where
  | ok (bytes : List Nat)
  | ioError
deriving DecidableEq

/-- How a session of `listen_to_serial` ended. -/
inductive SessionEnd where
  /-- The event list was exhausted: the loop is still waiting for data. -/
  | drained
  /-- A SerialException was caught (line 63): logged, `ser.close()` ran. -/
  | closedOnError
  /-- An exception no handler catches (UnicodeDecodeError from line 55)
  propagated out: the loop and the process die. -/
  | crashed
deriving DecidableEq

/-- Result of one `listen_to_serial` session. -/
structure SessionOut where
  st : St
  logs : List String
  dispatched : List Nat
  closed : Bool
  ended : SessionEnd
deriving DecidableEq

/-- Lines 51-65: the read loop. Processes each readline result in order:
a SerialException ends the session (caught, logged, channel closed); bytes
that fail UTF-8 decoding raise an exception that no handler catches
(`except` at line 63 only catches SerialException), crashing the session
with nothing further processed; otherwise the decoded, stripped line is
handled and the loop continues. -/
def listen_to_serial (w : World) : List ReadEvent → St → SessionOut
  | [], st => ⟨st, [], [], false, .drained⟩
  | .ioError :: _, st =>
    ⟨st, ["Serial connection lost"], [], true, .closedOnError⟩
  | .ok bytes :: rest, st =>
    match decode_utf8 bytes with
    | none => ⟨st, [], [], false, .crashed⟩
    | some cs =>
      let r1 := handle_line w (pyRstrip (String.mk cs)) st
      let r := listen_to_serial w rest r1.1
      ⟨r.st, r1.2.1 ++ r.logs,
        (match r1.2.2 with | some a => a :: r.dispatched | none => r.dispatched),
        r.closed, r.ended⟩

/-! ### open_serial_port (lines 39-48) and the outer loop (lines 67-73) -/

/-- Result of `open_serial_port`: how many failed attempts were logged, the
printed lines, the sleep durations (seconds) between attempts, and the
connection obtained (if the attempt list contained a success). -/
structure OpenOut where
  retries : Nat
  logs : List String
  delays : List Nat
  conn : Option Nat
deriving DecidableEq

/-- Lines 39-48: `open_serial_port(port, baudrate)`. The argument lists the
outcomes of successive `serial.Serial` constructor calls: `none` is a
SerialException (logged, then a 2-second sleep, then retry), `some c` an
open connection (returned). An exhausted list models a run still blocked
retrying, reported as `conn = none`. -/
def open_serial_port (port : String) : List (Option Nat) → OpenOut
  | [] => ⟨0, [], [], none⟩
  | some c :: _ => ⟨0, ["Connected to " ++ port], [], some c⟩
  | none :: rest =>
    let r := open_serial_port port rest
    ⟨r.retries + 1,
      ("Failed to connect to " ++ port) :: "Retrying in 2 seconds..." :: r.logs,
      2 :: r.delays, r.conn⟩

/-- One iteration of the outer loop: the open attempts granted to
`open_serial_port`, then the readline results of the session. -/
structure Episode where
  openAttempts : List (Option Nat)
  events : List ReadEvent

/-- What one outer-loop iteration did. -/
structure EpisodeTrace where
  openRetries : Nat
  conn : Option Nat
  dispatched : List Nat
  closed : Bool
deriving DecidableEq

/-- How the whole run ended. -/
inductive RunEnd where
  /-- The episode list was exhausted (in reality the loop runs on). -/
  | ranOut
  /-- Stuck inside `open_serial_port` retrying forever. -/
  | blockedOnOpen
  /-- Stuck inside a session waiting for more data. -/
  | inSession
  /-- The process died of an uncaught exception. -/
  | crashed
deriving DecidableEq

/-- Result of a whole run. -/
structure RunOut where
  traces : List EpisodeTrace
  st : St
  ended : RunEnd
deriving DecidableEq

/-- Lines 67-73: `while True: ser = open_serial_port(...); listen_to_serial(ser)`.
Each episode acquires a connection, then runs one session; only a session
that ended by a caught SerialException loops around to a fresh acquire. -/
def run (w : World) (port : String) : List Episode → St → RunOut
  | [], st => ⟨[], st, .ranOut⟩
  | ep :: rest, st =>
    let o := open_serial_port port ep.openAttempts
    match o.conn with
    | none => ⟨[⟨o.retries, none, [], false⟩], st, .blockedOnOpen⟩
    | some c =>
      let s := listen_to_serial w ep.events st
      let tr : EpisodeTrace := ⟨o.retries, some c, s.dispatched, s.closed⟩
      match s.ended with
      | .closedOnError =>
        let r := run w port rest s.st
        ⟨tr :: r.traces, r.st, r.ended⟩
      | .drained => ⟨[tr], s.st, .inSession⟩
      | .crashed => ⟨[tr], s.st, .crashed⟩

/-! ### Spec-side helper functions -/

/-- The angles a list of readline results would trigger, line by line. -/
def lineAngles (evs : List ReadEvent) : List Nat :=
  evs.filterMap fun e =>
    match e with
    | .ok bytes => (decode_utf8 bytes).bind fun cs => dispatch (pyRstrip (String.mk cs))
    | .ioError => none

/-- Whether an event is a line whose bytes decode successfully. -/
def decodableLine : ReadEvent → Bool
  | .ok bytes => (decode_utf8 bytes).isSome
  | .ioError => false

/-- A world where the camera works and every write succeeds. -/
def w0 : World := ⟨true, fun _ => some 0, fun _ => true⟩

/-- The initial state: both directories empty, no reads or writes yet. -/
def st0 : St := ⟨⟨[], []⟩, 0, 0⟩

/-! ### Decimal representation lemmas -/

theorem toDigitsCore_eq_decimalChars (fuel : Nat) :
    ∀ (n : Nat) (acc : List Char), n < fuel →
      Nat.toDigitsCore 10 fuel n acc = decimalChars n ++ acc := by
  induction fuel with
  | zero => intro n acc h; omega
  | succ fuel ih =>
    intro n acc h
    by_cases h10 : n < 10
    · have hdiv : n / 10 = 0 := Nat.div_eq_of_lt h10
      have hmod : n % 10 = n := Nat.mod_eq_of_lt h10
      simp [Nat.toDigitsCore, hdiv, hmod, decimalChars, h10]
    · have hdiv : n / 10 ≠ 0 := by
        intro hc
        exact h10 ((Nat.div_eq_zero_iff (by omega)).mp hc)
      have hlt : n / 10 < fuel := by
        have := Nat.div_lt_self (by omega : 0 < n) (by omega : 1 < 10)
        omega
      rw [decimalChars.eq_def]
      simp only [Nat.toDigitsCore, hdiv, if_false, h10, dif_neg, ite_false]
      rw [ih (n / 10) _ hlt]
      simp

theorem natDecimal_eq_decimalChars (n : Nat) :
    natDecimal n = String.mk (decimalChars n) := by
  have h := toDigitsCore_eq_decimalChars (n + 1) n [] (Nat.lt_succ_self n)
  simp only [natDecimal, Nat.repr, Nat.toDigits, List.asString, h, List.append_nil]

theorem digitChar_injOn (a b : Nat) (ha : a < 10) (hb : b < 10)
    (h : Nat.digitChar a = Nat.digitChar b) : a = b := by
  interval_cases a <;> interval_cases b <;> revert h <;> decide

theorem decimalChars_ne_nil (n : Nat) : decimalChars n ≠ [] := by
  rw [decimalChars.eq_def]
  split <;> simp

theorem decimalChars_inj (m : Nat) :
    ∀ n : Nat, decimalChars m = decimalChars n → m = n := by
  induction m using Nat.strong_induction_on with
  | _ m ih =>
    intro n h
    rw [decimalChars.eq_def, decimalChars.eq_def (n := n)] at h
    by_cases hm : m < 10 <;> by_cases hn : n < 10
    · simp only [hm, hn, dif_pos, List.cons.injEq] at h
      exact digitChar_injOn m n hm hn h.1
    · exfalso
      simp only [hm, hn, dif_pos, dif_neg, not_false_iff] at h
      have hlen := congrArg List.length h
      simp only [List.length_singleton, List.length_append, List.length_cons,
        List.length_nil] at hlen
      have hpos := List.length_pos.mpr (decimalChars_ne_nil (n / 10))
      omega
    · exfalso
      simp only [hm, hn, dif_pos, dif_neg, not_false_iff] at h
      have hlen := congrArg List.length h
      simp only [List.length_singleton, List.length_append, List.length_cons,
        List.length_nil] at hlen
      have hpos := List.length_pos.mpr (decimalChars_ne_nil (m / 10))
      omega
    · simp only [hm, hn, dif_neg, not_false_iff] at h
      have h' := congrArg List.reverse h
      simp only [List.reverse_append, List.reverse_cons, List.reverse_nil,
        List.nil_append, List.singleton_append, List.cons.injEq] at h'
      have hdig : m % 10 = n % 10 :=
        digitChar_injOn _ _ (Nat.mod_lt _ (by omega)) (Nat.mod_lt _ (by omega)) h'.1
      have hrev : decimalChars (m / 10) = decimalChars (n / 10) :=
        List.reverse_injective h'.2
      have hdivlt : m / 10 < m := Nat.div_lt_self (by omega) (by omega)
      have hdiv := ih (m / 10) hdivlt (n / 10) hrev
      omega

theorem natDecimal_inj (m n : Nat) (h : natDecimal m = natDecimal n) : m = n := by
  rw [natDecimal_eq_decimalChars, natDecimal_eq_decimalChars] at h
  exact decimalChars_inj m n (congrArg String.data h)

/-! ### String lemmas -/

theorem string_data_append (s t : String) : (s ++ t).data = s.data ++ t.data := by
  cases s
  cases t
  rfl

theorem capture_base_inj (m n : Nat)
    (h : "capture_" ++ natDecimal m ++ ".jpg" = "capture_" ++ natDecimal n ++ ".jpg") :
    m = n := by
  have hd := congrArg String.data h
  simp only [string_data_append] at hd
  have h1 := List.append_cancel_right hd
  have h2 := List.append_cancel_left h1
  exact natDecimal_inj m n (by
    apply congrArg String.mk
    exact h2)

/-! ### Store and folder lemmas -/

theorem capture_dirs_distinct : capture_dir_45 ≠ capture_dir_5 := by decide

theorem select_folder_cases (angle : Nat) :
    select_folder angle = capture_dir_5 ∨ select_folder angle = capture_dir_45 := by
  unfold select_folder
  split
  · exact Or.inl rfl
  · exact Or.inr rfl

theorem select_folder_eq_dir5_iff (angle : Nat) :
    select_folder angle = capture_dir_5 ↔ angle = 5 := by
  by_cases h : angle = 5 <;> simp [select_folder, h, capture_dirs_distinct]

theorem listdir_writeFile_same (st : Store) (folder base : String)
    (h : folder = capture_dir_5 ∨ folder = capture_dir_45) :
    (st.writeFile folder base).listdir folder = st.listdir folder ++ [base] := by
  rcases h with h | h <;> subst h <;>
    simp [Store.writeFile, Store.listdir, capture_dirs_distinct]

theorem writeFile_angle5 (st : Store) (base : String) :
    (st.writeFile capture_dir_45 base).angle5 = st.angle5 := by
  simp [Store.writeFile, capture_dirs_distinct]

/-! ### capture_image unfolding lemmas -/

theorem capture_image_notOpened (w : World) (angle : Nat) (st : St)
    (hopen : w.camOpened = false) :
    capture_image w angle st = (st, ["Could not open camera"]) := by
  simp [capture_image, hopen]

theorem capture_image_noFrame (w : World) (angle : Nat) (st : St)
    (hopen : w.camOpened = true) (hf : w.camRead st.reads = none) :
    capture_image w angle st =
      ({ st with reads := st.reads + 1 }, ["Failed to capture image"]) := by
  simp [capture_image, hopen, hf]

theorem capture_image_success (w : World) (angle : Nat) (st : St)
    (hopen : w.camOpened = true) (f : Nat) (hf : w.camRead st.reads = some f)
    (hw : w.writeOk st.writes = true) :
    capture_image w angle st =
      ({ store := st.store.writeFile (select_folder angle)
            (next_capture_name (st.store.listdir (select_folder angle))),
         reads := st.reads + 1, writes := st.writes + 1 },
       ["Captured image saved as "
         ++ (select_folder angle ++ "/"
              ++ next_capture_name (st.store.listdir (select_folder angle)))]) := by
  simp [capture_image, hopen, hf, hw]

theorem capture_image_writeFail (w : World) (angle : Nat) (st : St)
    (hopen : w.camOpened = true) (f : Nat) (hf : w.camRead st.reads = some f)
    (hw : w.writeOk st.writes = false) :
    capture_image w angle st =
      ({ st with reads := st.reads + 1, writes := st.writes + 1 },
       ["Captured image saved as "
         ++ (select_folder angle ++ "/"
              ++ next_capture_name (st.store.listdir (select_folder angle)))]) := by
  simp [capture_image, hopen, hf, hw]

theorem capture_image_angle5 (w : World) (angle : Nat) (st : St) (h : angle ≠ 5) :
    (capture_image w angle st).1.store.angle5 = st.store.angle5 := by
  by_cases hop : w.camOpened = false
  · simp [capture_image_notOpened w angle st hop]
  · simp only [Bool.not_eq_false] at hop
    have hsel : select_folder angle = capture_dir_45 := by simp [select_folder, h]
    cases hf : w.camRead st.reads with
    | none => simp [capture_image_noFrame w angle st hop hf]
    | some f =>
      by_cases hw : w.writeOk st.writes
      · simp [capture_image_success w angle st hop f hf hw, hsel, writeFile_angle5]
      · simp only [Bool.not_eq_true] at hw
        simp [capture_image_writeFail w angle st hop f hf hw]

/-! ### Dispatch and handle_line lemmas -/

theorem dispatch_isSome_iff (data : String) :
    (dispatch data).isSome = true ↔ (data = "Angle: 70" ∨ data = "Angle: 48") := by
  unfold dispatch
  split_ifs <;> simp_all

theorem dispatch_vals (data : String) (a : Nat) (h : dispatch data = some a) :
    a = 70 ∨ a = 48 := by
  unfold dispatch at h
  split_ifs at h
  · exact Or.inl (Option.some.inj h).symm
  · exact Or.inr (Option.some.inj h).symm


theorem handle_line_dispatched (w : World) (data : String) (st : St) :
    (handle_line w data st).2.2 = dispatch data := by
  unfold handle_line dispatch
  split_ifs <;> rfl

theorem handle_line_nomatch (w : World) (data : String) (st : St)
    (h : dispatch data = none) :
    handle_line w data st = (st, [("Received: " ++ data)], none) := by
  unfold dispatch at h
  unfold handle_line
  split_ifs at h ⊢
  simp_all

theorem handle_line_angle5 (w : World) (data : String) (st : St) :
    (handle_line w data st).1.store.angle5 = st.store.angle5 := by
  unfold handle_line
  split_ifs
  · exact capture_image_angle5 w 70 st (by omega)
  · exact capture_image_angle5 w 48 st (by omega)
  · rfl

/-! ### Read-loop unfolding lemmas -/

theorem listen_nil (w : World) (st : St) :
    listen_to_serial w [] st = ⟨st, [], [], false, .drained⟩ := rfl

theorem listen_ioError (w : World) (rest : List ReadEvent) (st : St) :
    listen_to_serial w (.ioError :: rest) st
      = ⟨st, ["Serial connection lost"], [], true, .closedOnError⟩ := rfl

theorem listen_badBytes (w : World) (bytes : List Nat) (rest : List ReadEvent) (st : St)
    (h : decode_utf8 bytes = none) :
    listen_to_serial w (.ok bytes :: rest) st = ⟨st, [], [], false, .crashed⟩ := by
  simp [listen_to_serial, h]

theorem listen_goodBytes (w : World) (bytes : List Nat) (cs : List Char)
    (rest : List ReadEvent) (st : St) (h : decode_utf8 bytes = some cs) :
    listen_to_serial w (.ok bytes :: rest) st =
      (let r1 := handle_line w (pyRstrip (String.mk cs)) st
       let r := listen_to_serial w rest r1.1
       ⟨r.st, r1.2.1 ++ r.logs,
         (match r1.2.2 with | some a => a :: r.dispatched | none => r.dispatched),
         r.closed, r.ended⟩) := by
  simp [listen_to_serial, h]

/-! ### Session induction lemmas -/

theorem listen_prefix_error (w : World) (pre post : List ReadEvent) :
    ∀ st : St, pre.all decodableLine = true →
      (listen_to_serial w (pre ++ .ioError :: post) st).dispatched = lineAngles pre
      ∧ (listen_to_serial w (pre ++ .ioError :: post) st).closed = true
      ∧ (listen_to_serial w (pre ++ .ioError :: post) st).ended = .closedOnError := by
  induction pre with
  | nil =>
    intro st _
    simp [listen_to_serial, lineAngles]
  | cons e pre ih =>
    intro st hall
    rw [List.all_cons, Bool.and_eq_true] at hall
    obtain ⟨he, hpre⟩ := hall
    cases e with
    | ioError => simp [decodableLine] at he
    | ok bytes =>
      obtain ⟨cs, hcs⟩ := Option.isSome_iff_exists.mp (by simpa [decodableLine] using he)
      have hrec := ih (handle_line w (pyRstrip (String.mk cs)) st).1 hpre
      rw [List.cons_append, listen_goodBytes w bytes cs _ st hcs]
      rcases hd : dispatch (pyRstrip (String.mk cs)) with _ | a <;>
        simp [lineAngles, List.filterMap_cons, hcs, hd, handle_line_dispatched,
          hrec.1, hrec.2.1, hrec.2.2]

theorem listen_drained (w : World) (evs : List ReadEvent) :
    ∀ st : St, evs.all decodableLine = true →
      (listen_to_serial w evs st).ended = .drained
      ∧ (listen_to_serial w evs st).closed = false := by
  induction evs with
  | nil => intro st _; simp [listen_nil]
  | cons e evs ih =>
    intro st hall
    rw [List.all_cons, Bool.and_eq_true] at hall
    obtain ⟨he, hevs⟩ := hall
    cases e with
    | ioError => simp [decodableLine] at he
    | ok bytes =>
      obtain ⟨cs, hcs⟩ := Option.isSome_iff_exists.mp (by simpa [decodableLine] using he)
      have hrec := ih (handle_line w (pyRstrip (String.mk cs)) st).1 hevs
      rw [listen_goodBytes w bytes cs _ st hcs]
      simpa using hrec

theorem listen_dispatched_split (w : World) (evs : List ReadEvent) :
    ∀ st : St, ∃ evs1 evs2, evs = evs1 ++ evs2
      ∧ (listen_to_serial w evs st).dispatched = lineAngles evs1 := by
  induction evs with
  | nil =>
    intro st
    exact ⟨[], [], rfl, by simp [listen_nil, lineAngles]⟩
  | cons e rest ih =>
    intro st
    cases e with
    | ioError =>
      exact ⟨[], .ioError :: rest, rfl, by simp [listen_ioError, lineAngles]⟩
    | ok bytes =>
      cases hd : decode_utf8 bytes with
      | none =>
        exact ⟨[], .ok bytes :: rest, rfl,
          by simp [listen_badBytes w bytes rest st hd, lineAngles]⟩
      | some cs =>
        obtain ⟨e1, e2, heq, hdisp⟩ := ih (handle_line w (pyRstrip (String.mk cs)) st).1
        refine ⟨.ok bytes :: e1, e2, by rw [List.cons_append, heq], ?_⟩
        rw [listen_goodBytes w bytes cs rest st hd]
        rcases hda : dispatch (pyRstrip (String.mk cs)) with _ | a <;>
          simp [lineAngles, List.filterMap_cons, hd, hda, handle_line_dispatched, hdisp]

theorem lineAngles_append (evs1 evs2 : List ReadEvent) :
    lineAngles (evs1 ++ evs2) = lineAngles evs1 ++ lineAngles evs2 := by
  simp [lineAngles, List.filterMap_append]

theorem listen_count_le (w : World) (evs : List ReadEvent) (st : St) (a : Nat) :
    ((listen_to_serial w evs st).dispatched).count a ≤ (lineAngles evs).count a := by
  obtain ⟨e1, e2, heq, hdisp⟩ := listen_dispatched_split w evs st
  rw [hdisp, heq, lineAngles_append, List.count_append]
  exact Nat.le_add_right _ _

theorem listen_angle5 (w : World) (evs : List ReadEvent) :
    ∀ st : St, (listen_to_serial w evs st).st.store.angle5 = st.store.angle5 := by
  induction evs with
  | nil => intro st; rfl
  | cons e rest ih =>
    intro st
    cases e with
    | ioError => rfl
    | ok bytes =>
      cases hd : decode_utf8 bytes with
      | none => simp [listen_badBytes w bytes rest st hd]
      | some cs =>
        rw [listen_goodBytes w bytes cs rest st hd]
        simp only []
        rw [ih (handle_line w (pyRstrip (String.mk cs)) st).1]
        exact handle_line_angle5 w _ st

theorem listen_dispatched_vals (w : World) (evs : List ReadEvent) :
    ∀ st : St, ∀ a ∈ (listen_to_serial w evs st).dispatched, a = 70 ∨ a = 48 := by
  induction evs with
  | nil => intro st a ha; simp [listen_nil] at ha
  | cons e rest ih =>
    intro st a ha
    cases e with
    | ioError => simp [listen_ioError] at ha
    | ok bytes =>
      cases hd : decode_utf8 bytes with
      | none => simp [listen_badBytes w bytes rest st hd] at ha
      | some cs =>
        rw [listen_goodBytes w bytes cs rest st hd] at ha
        rcases hda : dispatch (pyRstrip (String.mk cs)) with _ | b
        · simp only [handle_line_dispatched, hda] at ha
          exact ih _ a ha
        · simp only [handle_line_dispatched, hda, List.mem_cons] at ha
          rcases ha with rfl | ha
          · exact dispatch_vals _ a hda
          · exact ih _ a ha

/-! ### Dispatcher-on-lines lemmas -/

theorem onLines_dispatched (w : World) (ls : List String) :
    ∀ st : St, (onLines w ls st).2.2 = ls.filterMap dispatch := by
  induction ls with
  | nil => intro st; rfl
  | cons data ls ih =>
    intro st
    rcases hd : dispatch data with _ | a <;>
      simp [onLines, List.filterMap_cons, hd, handle_line_dispatched, ih]

/-! ### Claim theorems -/

/-- Claim C4: the connection manager blocks until an open connection is
established, retrying with a constant 2-second delay and no retry cap: for
every k, if the open primitive fails k times and then succeeds, exactly k
retry attempts are logged, each followed by a 2-second sleep, and the open
connection is returned. -/
theorem open_blocks_until_connected (port : String) (k : Nat) (c : Nat)
    (rest : List (Option Nat)) :
    (open_serial_port port (List.replicate k none ++ some c :: rest)).retries = k
    ∧ (open_serial_port port (List.replicate k none ++ some c :: rest)).delays
        = List.replicate k 2
    ∧ (open_serial_port port (List.replicate k none ++ some c :: rest)).conn = some c
    ∧ (open_serial_port port (List.replicate k none ++ some c :: rest)).logs
        = (List.replicate k
            ["Failed to connect to " ++ port, "Retrying in 2 seconds..."]).flatten
          ++ ["Connected to " ++ port] := by
  induction k with
  | zero => simp [open_serial_port]
  | succ k ih =>
    simp [List.replicate_succ, open_serial_port, ih.1, ih.2.1, ih.2.2.1, ih.2.2.2]

/-- Claim C5: an I/O failure during reading ends the session at that point:
exactly the lines before the failure are dispatched, the channel is closed
and discarded (the run continues only through a fresh `open_serial_port`
acquire for the next episode, a single reconnect sequence), and no line is
ever dispatched more often than it occurs in the event stream. -/
theorem read_error_single_reconnect (w : World) (port : String)
    (oa : List (Option Nat)) (c : Nat) (pre post : List ReadEvent)
    (eps : List Episode) (st : St)
    (hconn : (open_serial_port port oa).conn = some c)
    (hpre : pre.all decodableLine = true) :
    (run w port (⟨oa, pre ++ .ioError :: post⟩ :: eps) st).traces
      = ⟨(open_serial_port port oa).retries, some c, lineAngles pre, true⟩
        :: (run w port eps
              (listen_to_serial w (pre ++ .ioError :: post) st).st).traces
    ∧ (run w port (⟨oa, pre ++ .ioError :: post⟩ :: eps) st).st
        = (run w port eps (listen_to_serial w (pre ++ .ioError :: post) st).st).st
    ∧ (run w port (⟨oa, pre ++ .ioError :: post⟩ :: eps) st).ended
        = (run w port eps (listen_to_serial w (pre ++ .ioError :: post) st).st).ended
    ∧ (∀ (evs : List ReadEvent) (st2 : St) (a : Nat),
        ((listen_to_serial w evs st2).dispatched).count a ≤ (lineAngles evs).count a) := by
  obtain ⟨hdisp, hclosed, hended⟩ := listen_prefix_error w pre post st hpre
  simp only [run, hconn]
  rw [hended, hdisp, hclosed]
  exact ⟨rfl, rfl, rfl, fun evs st2 a => listen_count_le w evs st2 a⟩

/-- Witness for C5: one marker line, then a read failure, then an unread
line; the next episode needs one failed open before succeeding. -/
theorem read_error_single_reconnect_witness :
    (run w0 "COM4"
        [⟨[some 1], [.ok (encodeAscii "Angle: 70"), .ioError,
            .ok (encodeAscii "Angle: 70")]⟩,
         ⟨[none, some 2], []⟩] st0).traces
      = [⟨0, some 1, [70], true⟩, ⟨1, some 2, [], false⟩] := by
  have h := (read_error_single_reconnect w0 "COM4" [some 1] 1
      [.ok (encodeAscii "Angle: 70")] [.ok (encodeAscii "Angle: 70")]
      [⟨[none, some 2], []⟩] st0 (by decide) (by decide)).1
  exact h.trans (by decide)

/-- Claim C6 counterexample: a line of invalid UTF-8 bytes is not dropped:
the session crashes and the valid marker line after it is never processed,
so a decode failure is fatal to the read loop. -/
theorem decode_failure_not_dropped :
    (listen_to_serial w0 [.ok [0xFF], .ok (encodeAscii "Angle: 70")] st0).ended
      = .crashed
    ∧ (listen_to_serial w0 [.ok [0xFF], .ok (encodeAscii "Angle: 70")] st0).dispatched
      = [] := by
  decide

/-- Claim C6 (amended): bytes that are not valid UTF-8 raise a decode error
that no handler catches: the session ends in a crash with nothing logged,
nothing dispatched, the channel not even closed, and the whole outer run
terminates instead of reconnecting. -/
theorem decode_failure_fatal (w : World) (bytes : List Nat) (rest : List ReadEvent)
    (st : St) (h : decode_utf8 bytes = none) :
    listen_to_serial w (.ok bytes :: rest) st = ⟨st, [], [], false, .crashed⟩
    ∧ ∀ (port : String) (oa : List (Option Nat)) (c : Nat) (eps : List Episode),
        (open_serial_port port oa).conn = some c →
        run w port (⟨oa, .ok bytes :: rest⟩ :: eps) st
          = ⟨[⟨(open_serial_port port oa).retries, some c, [], false⟩], st, .crashed⟩ := by
  refine ⟨listen_badBytes w bytes rest st h, ?_⟩
  intro port oa c eps hconn
  simp only [run, hconn]
  rw [listen_badBytes w bytes rest st h]

/-- Witness for the amended C6 at the concrete byte 0xFF. -/
theorem decode_failure_fatal_witness :
    listen_to_serial w0 [.ok [0xFF]] st0 = ⟨st0, [], [], false, .crashed⟩
    ∧ run w0 "COM4" [⟨[some 1], [.ok [0xFF]]⟩] st0
        = ⟨[⟨0, some 1, [], false⟩], st0, .crashed⟩ := by
  have h := decode_failure_fatal w0 [0xFF] [] st0 (by decide)
  exact ⟨h.1, h.2 "COM4" [some 1] 1 [] (by decide)⟩

/-- Claim C1: over any sequence of lines fed to the dispatcher, a capture is
invoked exactly for the lines equal to one of the two configured angle
markers, and a line matching neither marker only logs and leaves the state
untouched. -/
theorem dispatcher_saves_only_markers (w : World) (ls : List String) (st : St) :
    (onLines w ls st).2.2 = ls.filterMap dispatch
    ∧ (∀ data : String,
        (dispatch data).isSome = true ↔ (data = "Angle: 70" ∨ data = "Angle: 48"))
    ∧ (∀ (data : String) (st2 : St), dispatch data = none →
        handle_line w data st2 = (st2, [("Received: " ++ data)], none)) := by
  exact ⟨onLines_dispatched w ls st, dispatch_isSome_iff,
    fun data st2 h => handle_line_nomatch w data st2 h⟩

/-- Witness for C1: two marker lines around a non-marker line dispatch
exactly the two marker angles, and the non-marker line is a no-op. -/
theorem dispatcher_saves_only_markers_witness :
    (onLines w0 ["Angle: 70", "hello", "Angle: 48"] st0).2.2 = [70, 48]
    ∧ handle_line w0 "hello" st0 = (st0, ["Received: hello"], none) := by
  have h := dispatcher_saves_only_markers w0 ["Angle: 70", "hello", "Angle: 48"] st0
  exact ⟨h.1.trans (by decide), h.2.2 "hello" st0 (by decide)⟩

/-- Claim C2: a saved image is named `capture_(count+1).jpg` where count is
the entry count of the bucket directory at write time (so 1 for an empty
directory); a successful save grows that count by exactly one, making the
sequence strictly increasing, and the number is always rederived from the
directory listing, never from an in-memory counter. -/
theorem capture_filename_sequence (w : World) (angle : Nat) (st : St)
    (hopen : w.camOpened = true) (f : Nat) (hf : w.camRead st.reads = some f)
    (hw : w.writeOk st.writes = true) :
    (capture_image w angle st).2
      = ["Captured image saved as "
          ++ (select_folder angle ++ "/"
               ++ ("capture_"
                    ++ natDecimal ((st.store.listdir (select_folder angle)).length + 1)
                    ++ ".jpg"))]
    ∧ (capture_image w angle st).1.store.listdir (select_folder angle)
        = st.store.listdir (select_folder angle)
          ++ [next_capture_name (st.store.listdir (select_folder angle))]
    ∧ ((capture_image w angle st).1.store.listdir (select_folder angle)).length
        = (st.store.listdir (select_folder angle)).length + 1
    ∧ (st.store.listdir (select_folder angle) = [] →
        next_capture_name (st.store.listdir (select_folder angle))
          = "capture_" ++ natDecimal 1 ++ ".jpg") := by
  have hsel := select_folder_cases angle
  refine ⟨?_, ?_, ?_, ?_⟩
  · simp [capture_image_success w angle st hopen f hf hw, next_capture_name]
  · simp only [capture_image_success w angle st hopen f hf hw]
    exact listdir_writeFile_same st.store (select_folder angle) _ hsel
  · simp only [capture_image_success w angle st hopen f hf hw]
    rw [listdir_writeFile_same st.store (select_folder angle) _ hsel]
    simp
  · intro he
    rw [he]
    rfl

/-- Witness for C2: a first capture into the empty angle-45 directory picks
`capture_1.jpg` and grows the entry count to 1. -/
theorem capture_filename_sequence_witness :
    (capture_image w0 48 st0).2
      = ["Captured image saved as captures/angle_45/capture_1.jpg"]
    ∧ ((capture_image w0 48 st0).1.store.listdir (select_folder 48)).length
        = (st0.store.listdir (select_folder 48)).length + 1 := by
  have h := capture_filename_sequence w0 48 st0 rfl 0 rfl rfl
  exact ⟨h.1.trans (by decide), h.2.2.1⟩

/-- Claim C3 counterexample: the line "Angle: 45" matches neither hard-coded
marker, so feeding it (twice) creates no file at all: the claimed
`angle_45/capture_1.jpg` never appears. -/
theorem angle45_line_not_dispatched :
    (listen_to_serial w0
        [.ok (encodeAscii "Angle: 45"), .ok (encodeAscii "Angle: 45")] st0).st.store
      = ⟨[], []⟩
    ∧ (listen_to_serial w0
        [.ok (encodeAscii "Angle: 45"), .ok (encodeAscii "Angle: 45")] st0).dispatched
      = []
    ∧ dispatch "Angle: 45" = none := by
  decide

/-- Claim C3 (amended): the markers are hard-coded to "Angle: 70" and
"Angle: 48" (there is no configurable bucket map), and both are routed to
the captures/angle_45 directory; with that directory empty, receiving
"Angle: 48" creates capture_1.jpg there and a second occurrence creates
capture_2.jpg, while "Angle: 45" creates nothing. -/
theorem marker_48_two_captures :
    (listen_to_serial w0
        [.ok (encodeAscii "Angle: 48"), .ok (encodeAscii "Angle: 48")] st0).st.store.angle45
      = ["capture_1.jpg", "capture_2.jpg"]
    ∧ (listen_to_serial w0
        [.ok (encodeAscii "Angle: 48"), .ok (encodeAscii "Angle: 48")] st0).st.store.angle5
      = []
    ∧ (listen_to_serial w0
        [.ok (encodeAscii "Angle: 48"), .ok (encodeAscii "Angle: 48")] st0).logs
      = ["Received: Angle: 48",
         "Captured image saved as captures/angle_45/capture_1.jpg",
         "Received: Angle: 48",
         "Captured image saved as captures/angle_45/capture_2.jpg"]
    ∧ (listen_to_serial w0 [.ok (encodeAscii "Angle: 45")] st0).st.store = ⟨[], []⟩ := by
  decide

/-- Claim C7: if the camera is not opened or returns no frame, the handler
only logs the corresponding message and returns: no file is written, the
directory (and hence the derived sequence number) is unchanged, at most one
grab is attempted (no retry), and a stream of decodable lines keeps the
read loop running. -/
theorem camera_failure_no_write (w : World) (angle : Nat) (st : St)
    (h : w.camOpened = false ∨ w.camRead st.reads = none) :
    (capture_image w angle st).1.store = st.store
    ∧ ((capture_image w angle st).2 = ["Could not open camera"]
        ∨ (capture_image w angle st).2 = ["Failed to capture image"])
    ∧ (capture_image w angle st).1.writes = st.writes
    ∧ (capture_image w angle st).1.reads ≤ st.reads + 1
    ∧ (∀ (evs : List ReadEvent) (st2 : St), evs.all decodableLine = true →
        (listen_to_serial w evs st2).ended = .drained) := by
  have hloop : ∀ (evs : List ReadEvent) (st2 : St), (∀ e ∈ evs, decodableLine e = true) →
      (listen_to_serial w evs st2).ended = SessionEnd.drained :=
    fun evs st2 hall => (listen_drained w evs st2 (by simpa using hall)).1
  rcases h with h | h
  · simp [capture_image_notOpened w angle st h]
    exact hloop
  · by_cases hop : w.camOpened = false
    · simp [capture_image_notOpened w angle st hop]
      exact hloop
    · simp only [Bool.not_eq_false] at hop
      simp [capture_image_noFrame w angle st hop h]
      exact hloop

/-- A world whose camera is not opened. -/
def wNoCam : World := ⟨false, fun _ => some 0, fun _ => true⟩

/-- Witness for C7 with a closed camera. -/
theorem camera_failure_no_write_witness :
    (capture_image wNoCam 70 st0).1.store = st0.store
    ∧ ((capture_image wNoCam 70 st0).2 = ["Could not open camera"]
        ∨ (capture_image wNoCam 70 st0).2 = ["Failed to capture image"])
    ∧ (capture_image wNoCam 70 st0).1.writes = st0.writes
    ∧ (capture_image wNoCam 70 st0).1.reads ≤ st0.reads + 1 := by
  have h := camera_failure_no_write wNoCam 70 st0 (Or.inl rfl)
  exact ⟨h.1, h.2.1, h.2.2.1, h.2.2.2.1⟩

/-- A world whose camera works but whose image writes all fail. -/
def wBadWrite : World := ⟨true, fun _ => some 0, fun _ => false⟩

/-- Claim C8 counterexample: a failed image write is not surfaced as a save
failure: the only log line is the very success message a successful write
prints, even though no file was created. -/
theorem write_failure_logged_as_success :
    (capture_image wBadWrite 48 st0).2
      = ["Captured image saved as captures/angle_45/capture_1.jpg"]
    ∧ (capture_image wBadWrite 48 st0).2 = (capture_image w0 48 st0).2
    ∧ (capture_image wBadWrite 48 st0).1.store = st0.store := by
  decide

/-- Claim C8 (amended): on a persistence failure nothing is written (the
directory and hence the sequence number are unchanged), exactly one write is
attempted (no retry), and the read loop goes on; but the failure is silent:
the code ignores the write result and logs the success message anyway. -/
theorem write_failure_silent (w : World) (angle : Nat) (st : St)
    (hopen : w.camOpened = true) (f : Nat) (hf : w.camRead st.reads = some f)
    (hw : w.writeOk st.writes = false) :
    (capture_image w angle st).1.store = st.store
    ∧ (capture_image w angle st).2
        = ["Captured image saved as "
            ++ (select_folder angle ++ "/"
                 ++ next_capture_name (st.store.listdir (select_folder angle)))]
    ∧ (capture_image w angle st).1.writes = st.writes + 1
    ∧ (∀ (evs : List ReadEvent) (st2 : St), evs.all decodableLine = true →
        (listen_to_serial w evs st2).ended = .drained) := by
  simp [capture_image_writeFail w angle st hopen f hf hw]
  exact fun evs st2 hall => (listen_drained w evs st2 (by simpa using hall)).1

/-- Witness for the amended C8 with an always-failing writer. -/
theorem write_failure_silent_witness :
    (capture_image wBadWrite 48 st0).1.store = st0.store
    ∧ (capture_image wBadWrite 48 st0).1.writes = st0.writes + 1 := by
  have h := write_failure_silent wBadWrite 48 st0 rfl 0 rfl rfl
  exact ⟨h.1, h.2.2.1⟩

/-- Claim C9: the dispatcher only ever captures with angle 70 or 48, the
folder choice is captures/angle_5 exactly when the angle is 5, and both 70
and 48 route to captures/angle_45, so no run of the read loop ever adds a
file to the angle-5 directory. -/
theorem dispatched_captures_in_angle45 (w : World) (evs : List ReadEvent) (st : St) :
    (listen_to_serial w evs st).st.store.angle5 = st.store.angle5
    ∧ (∀ a ∈ (listen_to_serial w evs st).dispatched, a = 70 ∨ a = 48)
    ∧ select_folder 70 = capture_dir_45
    ∧ select_folder 48 = capture_dir_45
    ∧ (∀ angle : Nat, select_folder angle = capture_dir_5 ↔ angle = 5) := by
  exact ⟨listen_angle5 w evs st, listen_dispatched_vals w evs st, rfl, rfl,
    select_folder_eq_dir5_iff⟩

/-- Witness for C9 on a single dispatched marker line. -/
theorem dispatched_captures_in_angle45_witness :
    (listen_to_serial w0 [.ok (encodeAscii "Angle: 70")] st0).st.store.angle5
      = st0.store.angle5
    ∧ (70 = 70 ∨ 70 = 48)
    ∧ select_folder 5 = capture_dir_5 := by
  have h := dispatched_captures_in_angle45 w0 [.ok (encodeAscii "Angle: 70")] st0
  exact ⟨h.1, h.2.1 70 (by decide), (h.2.2.2.2 5).mpr rfl⟩

/-- Claim C10: the chosen filename depends only on the entry count of the
directory, and when the entries are exactly capture_1.jpg .. capture_n.jpg
the chosen name capture_(n+1).jpg collides with none of them, so no
existing entry is overwritten. -/
theorem filename_from_count_no_collision :
    (∀ (st1 st2 : Store) (folder : String),
        (st1.listdir folder).length = (st2.listdir folder).length →
        next_capture_name (st1.listdir folder) = next_capture_name (st2.listdir folder))
    ∧ (∀ n : Nat,
        next_capture_name
            ((List.range n).map fun i => "capture_" ++ natDecimal (i + 1) ++ ".jpg")
          ∉ (List.range n).map fun i => "capture_" ++ natDecimal (i + 1) ++ ".jpg") := by
  constructor
  · intro st1 st2 folder h
    unfold next_capture_name
    rw [h]
  · intro n hmem
    unfold next_capture_name at hmem
    rw [List.length_map, List.length_range, List.mem_map] at hmem
    obtain ⟨i, hi, heq⟩ := hmem
    rw [List.mem_range] at hi
    have := capture_base_inj (i + 1) (n + 1) heq
    omega

/-- Witness for C10: directories with equally many (differently named)
entries get the same next filename, and with entries capture_1.jpg and
capture_2.jpg the chosen name capture_3.jpg is not among them. -/
theorem filename_from_count_no_collision_witness :
    next_capture_name ((Store.mk ["x.jpg"] []).listdir capture_dir_5)
      = next_capture_name ((Store.mk ["y.jpg"] []).listdir capture_dir_5)
    ∧ (("capture_" ++ natDecimal 3 ++ ".jpg")
        ∈ ((List.range 2).map fun i => "capture_" ++ natDecimal (i + 1) ++ ".jpg"))
      = False := by
  refine ⟨filename_from_count_no_collision.1 (Store.mk ["x.jpg"] [])
      (Store.mk ["y.jpg"] []) capture_dir_5 (by decide), ?_⟩
  exact eq_false (filename_from_count_no_collision.2 2)

end Listen
